import Mathlib

/-!
# TreeDetect — verification of the spec against the source

Shallow embedding of the TreeDetect pipeline (geographic tiler, tile data
cache, detection transform, pipeline orchestrator) and proofs of the spec's
claims about it.

Numeric values that the Python source holds in floats are modelled as exact
rationals (`ℚ`) where the computation is field arithmetic, and as real
numbers (`ℝ`) where the source computes with transcendental functions
(`sqrt`, `pi`, trigonometry).  External collaborators (the WMS clients,
`skimage.blob_log`, the file system) are modelled by their observable
outcomes, passed in as parameters of the embedded functions.
-/

namespace TreeDetect

/-! ## `data_preparation/geo_indices.py` -/

/-- `calculate_ndvi(nir, red)` from `geo_indices.py`: the elementwise body
`(nir - red) / (nir + red)`, modelled pointwise on exact rationals. -/
def calculate_ndvi (nir red : ℚ) : ℚ :=
  (nir - red) / (nir + red)

/-! ## `input_output/input_utils.py` — `load_data` and its collaborators

`load_data(folders, settings, filename, bbox, wmses)` consults the disk
cache (`images_already_saved`, `get_images_from_hard_drive`) and the remote
clients (`get_images_from_wms_service`, `save_images`).  Those collaborators
touch the file system and the network; the embedding records their
observable outcomes in a `LoadEnv` and mirrors `load_data`'s control flow
exactly, additionally recording which collaborators were invoked so that
"falls through to the remote fetch" is expressible. -/

/-- A raster set: mapping from layer key to an (abstract) raster. -/
abbrev RasterSet := List (String × Nat)

/-- Outcomes of the collaborators that `load_data` calls.
`hard_drive_result` / `wms_result` are `.error ()` when the corresponding
Python call raises, `save_images_ok = false` when `save_images` raises. -/
structure LoadEnv where
  save_wms_data_to_hard_drive : Bool
  images_already_saved : Bool
  hard_drive_result : Except Unit RasterSet
  wms_result : Except Unit RasterSet
  save_images_ok : Bool

/-- Observable result of one `load_data` call: the returned
`(images, status)` pair plus which collaborators were invoked. -/
structure LoadResult where
  images : RasterSet
  status : String
  hard_drive_called : Bool
  wms_called : Bool
deriving DecidableEq

/-- `load_data` from `input_utils.py`.  Control flow of the source:

    images = {}; status = 'loading'
    if save_wms_data_to_hard_drive and images_already_saved(...):
        try: images = get_images_from_hard_drive(...); status = 'loaded'
        except: status = 'retry'
    elif status == 'loading' or status == 'retry':
        try:
            images = get_images_from_wms_service(...)
            if save_wms_data_to_hard_drive: save_images(...)
            status = 'loaded'
        except: status = 'load_fail'
    return images, status

Because the second branch is an `elif`, it runs only when the first `if`
condition is false (when the first branch runs, control skips the `elif`
whatever status it set).  A raising `get_images_from_wms_service` leaves
`images` at its initial `{}`; a raising `save_images` occurs after `images`
was assigned the fetched set. -/
def load_data (env : LoadEnv) : LoadResult :=
  if env.save_wms_data_to_hard_drive && env.images_already_saved then
    match env.hard_drive_result with
    | .ok imgs => ⟨imgs, "loaded", true, false⟩
    | .error _ => ⟨[], "retry", true, false⟩
  else
    match env.wms_result with
    | .ok imgs =>
        if env.save_wms_data_to_hard_drive && !env.save_images_ok then
          ⟨imgs, "load_fail", false, true⟩
        else
          ⟨imgs, "loaded", false, true⟩
    | .error _ => ⟨[], "load_fail", false, true⟩

/-! ## `input_output/input_utils.py` — `get_todo_filenames`

`get_todo_filenames(coord_df, todo_filepath)` reads the todo csv and maps
its `filename` entries to row indices of the coordinate dataframe.  The file
system / csv reader outcomes are modelled by `TodoSource`; the plan's
`filename` column is the list `coord`.  The source returns `None` (falling
through or explicitly) when the file is missing, unreadable, has no
`filename` column, or that column is empty; otherwise, for each entry found
in the plan it appends the first matching row index (absent entries are
logged and skipped). -/

/-- Observable state of the todo file: absent, raising on read, readable but
without a usable `filename` column, or readable with that column's entries. -/
inductive TodoSource
  | missing
  | unreadable
  | noFilenameColumn
  | entries (names : List String)
deriving DecidableEq

/-- `get_todo_filenames` from `input_utils.py`.  `coord` is the plan's
`filename` column in row order; the result is `none` exactly when the
source returns `None`. -/
def get_todo_filenames (coord : List String) : TodoSource → Option (List Nat)
  | .missing => none
  | .unreadable => none
  | .noFilenameColumn => none
  | .entries names =>
      if names.length = 0 then none
      else some (names.filterMap fun n => coord.findIdx? (· = n))

/-! ## `analyses/analysis_pipeline.py` — the main loop

`analysis_pipeline(settings, folders, coord_df, analysis_method, todo)`:
(a) selects the working subset of row indices (`total`), (b) loops over it
fetching and analyzing each tile inside a per-tile `try/except`, appending
the tile's filename to `succeeded` or `failed`, and (c) afterwards writes
`failed.csv` when at least one tile failed and no such file exists yet.

Per-tile, the loop body can observe: `load_data` itself raising (modelled
`FetchOutcome.raises` — e.g. a `KeyError` on the settings dictionary),
`load_data` returning a status string, and the analysis method raising or
returning.  The embedding mirrors the body:

    try:
        images, status = load_data(...)
        if status == 'loaded':
            if analysis_method is not None: result = analysis_method(...)
            status = 'success'; succeeded.append(filename)
        else:
            status = 'fail'; failed.append(filename)
    except Exception:
        status = 'fail'; failed.append(filename)
-/

/-- Outcome of the fetch stage for one tile: the `load_data` call raises,
or returns with a status string. -/
inductive FetchOutcome
  | raises
  | returns (status : String)
deriving DecidableEq

/-- Outcome of the analysis stage for one tile. -/
inductive AnalysisOutcome
  | raises
  | returns
deriving DecidableEq

/-- One selected tile as the main loop observes it: its filename and the
outcomes of its two stages. -/
structure TileRun where
  filename : String
  fetch : FetchOutcome
  analysis : AnalysisOutcome
deriving DecidableEq

/-- Does this tile's iteration end in the `failed` list?  True when the
fetch raises, when the returned status is not `'loaded'`, or when the
analysis method raises. -/
def tileFails (t : TileRun) : Bool :=
  match t.fetch with
  | .raises => true
  | .returns st =>
      if st = "loaded" then
        match t.analysis with
        | .raises => true
        | .returns => false
      else true

/-- One iteration of the main loop: returns the updated
`(succeeded, failed)` lists.  Mirrors the loop body of
`analysis_pipeline` (appends are at the end, as `list.append` in Python). -/
def processTile (t : TileRun) (acc : List String × List String) :
    List String × List String :=
  match t.fetch with
  | .raises => (acc.1, acc.2 ++ [t.filename])
  | .returns st =>
      if st = "loaded" then
        match t.analysis with
        | .raises => (acc.1, acc.2 ++ [t.filename])
        | .returns => (acc.1 ++ [t.filename], acc.2)
      else (acc.1, acc.2 ++ [t.filename])

/-- The main loop of `analysis_pipeline` over the selected tiles, starting
from empty `succeeded` / `failed` lists. -/
def mainLoop (tiles : List TileRun) : List String × List String :=
  tiles.foldl (fun acc t => processTile t acc) ([], [])

/-- The post-loop `failed.csv` write decision of `analysis_pipeline`:

    if len(failed) > 0:
        if not os.path.exists(...'failed.csv'): failed_df.to_csv(...)

`True` iff the run writes the retry file, given whether one already exists. -/
def writesFailedCsv (failed : List String) (failedCsvExists : Bool) : Bool :=
  if failed.length > 0 then
    if failedCsvExists then false else true
  else false

/-- The subset-selection step of `analysis_pipeline`:

    total = list(range(len(coord_df)))
    if todo is not None:
        total_try = get_todo_filenames(coord_df, todo_filepath)
        if total_try is not None and len(total_try) > 0: total = total_try

`coord` is the plan's `filename` column; `todo` is `none` when no todo file
was supplied, else the observable state of that file. -/
def selectTotal (coord : List String) (todo : Option TodoSource) : List Nat :=
  let all := List.range coord.length
  match todo with
  | none => all
  | some src =>
      match get_todo_filenames coord src with
      | none => all
      | some idxs => if idxs.length > 0 then idxs else all

/-! ## `input_output/coordinate_utils.py` — `check_bbox` and `cut_up_bbox`

`check_bbox` swaps coordinates so the box goes low-to-high.  `cut_up_bbox`
first computes `steps_horizontal` / `steps_vertical` and the per-step
offsets `stepsize_lon` / `stepsize_lat` through `haversine` /
`haversine_inv` (floating-point trigonometry; those derived quantities
enter the tile loop only as four numbers), then runs the double loop

    for i in range(steps_horizontal):
        lon = lon1 + i*stepsize_lon
        lon_new = lon + stepsize_lon
        for j in range(steps_vertical):
            lat = lat1 + j*stepsize_lat
            lat_new = lat + stepsize_lat
            fname = '{0}_{1}'.format(i, j)
            ... append row (fname, lon, lat, lon_new, lat_new)

The loop is embedded exactly, parametrized by the four derived numbers. -/

/-- `check_bbox` from `coordinate_utils.py`, on exact rationals. -/
def check_bbox (bbox : ℚ × ℚ × ℚ × ℚ) : ℚ × ℚ × ℚ × ℚ :=
  let lon1 := bbox.1
  let lat1 := bbox.2.1
  let lon2 := bbox.2.2.1
  let lat2 := bbox.2.2.2
  let p₁ := if lon2 < lon1 then (lon2, lon1) else (lon1, lon2)
  let p₂ := if lat2 < lat1 then (lat2, lat1) else (lat1, lat2)
  (p₁.1, p₂.1, p₁.2, p₂.2)

/-- One row of the coordinate dataframe produced by `cut_up_bbox`. -/
structure TileRow where
  filename : String
  lonMin : ℚ
  latMin : ℚ
  lonMax : ℚ
  latMax : ℚ
deriving DecidableEq

/-- The single (column `i`, row `j`) entry of `cut_up_bbox`'s loop. -/
def cutUpRow (lon1 lat1 slon slat : ℚ) (i j : Nat) : TileRow :=
  { filename := toString i ++ "_" ++ toString j
    lonMin := lon1 + i * slon
    latMin := lat1 + j * slat
    lonMax := lon1 + i * slon + slon
    latMax := lat1 + j * slat + slat }

/-- The tile double loop of `cut_up_bbox`: columns outermost
(`i in range(steps_horizontal)`), rows innermost
(`j in range(steps_vertical)`), each box by direct multiplication of the
step offsets.  `lon1, lat1` are the (normalized) southwest corner,
`slon, slat` the per-step offsets derived upstream. -/
def cut_up_bbox_rows (lon1 lat1 slon slat : ℚ) (stepsH stepsV : Nat) :
    List TileRow :=
  (List.range stepsH).flatMap fun i =>
    (List.range stepsV).map fun j => cutUpRow lon1 lat1 slon slat i j

/-! ## `analyses/scale_space_tree_detection.py` — the detection transform

`log_blob_detect` calls the external `skimage.feature.blob_log` (modelled by
its output, a list of raw `(row, col, sigma)` detections) and multiplies the
sigma column by `sqrt(2)`.  `scale_space_tree_detect` (lines 150–158) then,
per blob: flips `(row, col)` to `(x, y)`, inverts the vertical pixel axis
(`ndvi.shape[0] - y`), maps pixels to `(lon, lat)` via `points_to_coords`
(i.e. `haversine_inv` applied to pixel offsets times `pixel_size`), replaces
the radius column with `radius * pixel_size`, and appends diameter
(`r * 2`), circumference (`r * 2 * pi`) and area (`r**2 * pi`) columns.
These involve `sqrt`, `pi` and `cos`, so this part is embedded over `ℝ`. -/

/-- A raw scale-space detection `(row, col, sigma)` as returned by
`blob_log`. -/
structure Blob where
  row : ℝ
  col : ℝ
  sigma : ℝ

/-- `haversine_inv(lon1, lat1, dx, dy)` from `coordinate_utils.py`, over
`ℝ`: meters-offset to coordinates via the equirectangular inverse step. -/
noncomputable def haversine_inv (lon1 lat1 dx dy : ℝ) : ℝ × ℝ :=
  let dxkm := dx / 1000
  let dykm := dy / 1000
  (lon1 + dxkm / 6371 * (180 / Real.pi) / Real.cos (lat1 * Real.pi / 180),
   lat1 + dykm / 6371 * (180 / Real.pi))

/-- `log_blob_detect` from `scale_space_tree_detection.py`, parametrized by
the raw `blob_log` output: `blobs[:, 2] *= sqrt(2)`. -/
noncomputable def log_blob_detect (rawBlobs : List Blob) : List Blob :=
  rawBlobs.map fun b => { b with sigma := b.sigma * Real.sqrt 2 }

/-- One output row of `scale_space_tree_detect` (the columns of the saved
results table: longitude, latitude, radius, diameter, circumference,
area). -/
@[ext]
structure Feature where
  lon : ℝ
  lat : ℝ
  radius : ℝ
  diameter : ℝ
  circumference : ℝ
  area : ℝ

/-- The per-blob tail of `scale_space_tree_detect` (lines 151–158): axis
flips, `points_to_coords`, radius to meters, derived geometry columns.
`imgHeight` is `ndvi.shape[0]`, `lon1/lat1` the tile box's southwest
corner. -/
noncomputable def blobToFeature (imgHeight pixel_size lon1 lat1 : ℝ)
    (b : Blob) : Feature :=
  let x := b.col
  let y := imgHeight - b.row
  let coord := haversine_inv lon1 lat1 (x * pixel_size) (y * pixel_size)
  let r := b.sigma * pixel_size
  { lon := coord.1
    lat := coord.2
    radius := r
    diameter := r * 2
    circumference := r * 2 * Real.pi
    area := r ^ 2 * Real.pi }

/-- The detection transform of `scale_space_tree_detect` downstream of
`blob_log`: scale sigma by `sqrt 2`, then apply the per-blob tail to every
detection, preserving the detector's output order. -/
noncomputable def scale_space_transform (rawBlobs : List Blob)
    (imgHeight pixel_size lon1 lat1 : ℝ) : List Feature :=
  (log_blob_detect rawBlobs).map (blobToFeature imgHeight pixel_size lon1 lat1)

/-! ## Helper lemmas -/

/-- `processTile` in terms of `tileFails`: every iteration appends the
tile's filename to exactly one of the two lists. -/
theorem processTile_eq (t : TileRun) (acc : List String × List String) :
    processTile t acc =
      if tileFails t then (acc.1, acc.2 ++ [t.filename])
      else (acc.1 ++ [t.filename], acc.2) := by
  cases t with
  | mk fn fetch analysis =>
    cases fetch with
    | raises => rfl
    | returns st =>
      by_cases hst : st = "loaded"
      · cases analysis <;> simp [processTile, tileFails, hst]
      · simp [processTile, tileFails, hst]

/-- Closed form for the main loop from any starting accumulator. -/
theorem foldl_processTile (tiles : List TileRun)
    (acc : List String × List String) :
    tiles.foldl (fun a t => processTile t a) acc =
      (acc.1 ++ (tiles.filter fun t => !tileFails t).map TileRun.filename,
       acc.2 ++ (tiles.filter tileFails).map TileRun.filename) := by
  induction tiles generalizing acc with
  | nil => simp
  | cons t rest ih =>
    rw [List.foldl_cons, ih, processTile_eq]
    by_cases ht : tileFails t <;> simp [ht]

/-- Closed form for `mainLoop`: the succeeded list is the filenames of the
non-failing tiles in order, the failed list those of the failing tiles. -/
theorem mainLoop_eq (tiles : List TileRun) :
    mainLoop tiles =
      ((tiles.filter fun t => !tileFails t).map TileRun.filename,
       (tiles.filter tileFails).map TileRun.filename) := by
  rw [mainLoop, foldl_processTile]
  simp

/-! ## Claims -/

/-- **C1** — The claim states that when disk caching is enabled, all enabled
layers are cached, and a read error occurs while loading from storage,
`load_data` falls through to fetching from the raster-source clients.  The
code does not: the remote fetch sits in an `elif` branch that is skipped
whenever the cache branch was entered, so a cache read error returns
status `'retry'` with empty images and the WMS clients are never called —
whatever result the remote fetch would have produced.  (The code's own
comment, "if image load from hard drive failed, retry from wms source",
and the dead `status == 'retry'` disjunct of the `elif` condition, show the
fall-through was the intent, so this is a bug in the code.) -/
theorem load_data_cache_read_error_no_refetch
    (wms : Except Unit RasterSet) (saveOk : Bool) :
    load_data ⟨true, true, .error (), wms, saveOk⟩ =
      ⟨[], "retry", true, false⟩ := by
  rfl

/-- **C3** — If `load_data` reaches the remote-fetch branch (the cache
branch was not taken) and `get_images_from_wms_service` raises, then
`load_data` returns the failure status `'load_fail'` together with an empty
raster-set dictionary; being a total function of the collaborator outcomes,
it propagates no exception to its caller. -/
theorem load_data_wms_error_load_fail (env : LoadEnv)
    (hcache : env.save_wms_data_to_hard_drive = false ∨
      env.images_already_saved = false)
    (hwms : env.wms_result = .error ()) :
    load_data env = ⟨[], "load_fail", false, true⟩ := by
  cases env with
  | mk save saved hd wms saveOk =>
    simp only at hcache hwms
    subst hwms
    rcases hcache with h | h <;> subst h <;> simp [load_data]

/-- Witness for C3 at a concrete environment: caching disabled, the WMS
fetch raises. -/
theorem load_data_wms_error_load_fail_witness :
    ((false : Bool) = false ∨ (false : Bool) = false) ∧
    load_data ⟨false, false, .ok [], .error (), true⟩ =
      ⟨[], "load_fail", false, true⟩ :=
  ⟨Or.inl rfl,
    load_data_wms_error_load_fail ⟨false, false, .ok [], .error (), true⟩
      (Or.inl rfl) rfl⟩

/-- **C5 counterexample** — As stated ("for all finite inputs with
`nir + red ≠ 0`"), the claim is false: `calculate_ndvi 1 (-2) = -3`, which
lies outside `[-1, 1]` although `1 + (-2) ≠ 0`. -/
theorem calculate_ndvi_out_of_bounds :
    (1 : ℚ) + (-2) ≠ 0 ∧ calculate_ndvi 1 (-2) = -3 ∧
      ¬(-1 ≤ calculate_ndvi 1 (-2) ∧ calculate_ndvi 1 (-2) ≤ 1) := by
  norm_num [calculate_ndvi]

/-- **C5 (amended)** — For all nonnegative inputs `nir`, `red` with
`nir + red ≠ 0`, `calculate_ndvi nir red = (nir - red) / (nir + red)` lies
in the closed interval `[-1, 1]`. -/
theorem calculate_ndvi_bounds (nir red : ℚ) (hn : 0 ≤ nir) (hr : 0 ≤ red)
    (hsum : nir + red ≠ 0) :
    -1 ≤ calculate_ndvi nir red ∧ calculate_ndvi nir red ≤ 1 := by
  have hpos : 0 < nir + red := lt_of_le_of_ne (add_nonneg hn hr) (Ne.symm hsum)
  rw [calculate_ndvi, le_div_iff₀ hpos, div_le_one hpos]
  constructor <;> linarith

/-- Witness for the amended C5 at `nir = 3`, `red = 1`
(`calculate_ndvi 3 1 = 1/2`). -/
theorem calculate_ndvi_bounds_witness :
    (0 : ℚ) ≤ 3 ∧ (0 : ℚ) ≤ 1 ∧ (3 : ℚ) + 1 ≠ 0 ∧
    (-1 ≤ calculate_ndvi 3 1 ∧ calculate_ndvi 3 1 ≤ 1) :=
  ⟨by norm_num, by norm_num, by norm_num,
    calculate_ndvi_bounds 3 1 (by norm_num) (by norm_num) (by norm_num)⟩

/-- **C8** — After the main loop, the retry file `failed.csv` is written if
and only if at least one tile failed and no file already exists at that
path: an existing failure log is never overwritten, and no retry file is
created when every tile succeeded. -/
theorem failed_csv_write_iff (tiles : List TileRun) (failedCsvExists : Bool) :
    writesFailedCsv (mainLoop tiles).2 failedCsvExists = true ↔
      ((mainLoop tiles).2 ≠ [] ∧ failedCsvExists = false) := by
  rw [writesFailedCsv]
  rcases h : (mainLoop tiles).2 with _ | ⟨a, rest⟩ <;>
    cases failedCsvExists <;> simp

/-- **C2** — For any tile whose fetch stage raises, or whose fetch returns
`'loaded'` and whose analysis stage raises, that tile's filename lands in
the failed list; moreover the failed list is exactly the filenames of the
tiles whose iteration failed, in plan order, and the succeeded list exactly
those of the rest — so the loop processes every selected tile, each failure
marks exactly that tile, and (the loop being a total function of the staged
outcomes) no exception from the two stages propagates out of it. -/
theorem mainLoop_catches_exceptions (tiles : List TileRun) (t : TileRun)
    (hmem : t ∈ tiles)
    (hexc : t.fetch = FetchOutcome.raises ∨
      (t.fetch = FetchOutcome.returns "loaded" ∧
        t.analysis = AnalysisOutcome.raises)) :
    t.filename ∈ (mainLoop tiles).2 ∧
    (mainLoop tiles).2 = (tiles.filter tileFails).map TileRun.filename ∧
    (mainLoop tiles).1 =
      (tiles.filter fun t => !tileFails t).map TileRun.filename := by
  have hfail : tileFails t = true := by
    rcases hexc with h | ⟨h1, h2⟩
    · simp [tileFails, h]
    · simp [tileFails, h1, h2]
  refine ⟨?_, by rw [mainLoop_eq], by rw [mainLoop_eq]⟩
  rw [mainLoop_eq]
  exact List.mem_map_of_mem _ (List.mem_filter.mpr ⟨hmem, hfail⟩)

/-- Witness for C2: a two-tile run in which the first tile's fetch raises;
`"0_0"` is recorded in the failed list and `"0_1"` in the succeeded list. -/
theorem mainLoop_catches_exceptions_witness :
    (⟨"0_0", FetchOutcome.raises, AnalysisOutcome.returns⟩ : TileRun) ∈
      [(⟨"0_0", FetchOutcome.raises, AnalysisOutcome.returns⟩ : TileRun),
       ⟨"0_1", FetchOutcome.returns "loaded", AnalysisOutcome.returns⟩] ∧
    ("0_0" ∈ (mainLoop
      [(⟨"0_0", FetchOutcome.raises, AnalysisOutcome.returns⟩ : TileRun),
       ⟨"0_1", FetchOutcome.returns "loaded",
          AnalysisOutcome.returns⟩]).2) := by
  refine ⟨by decide, ?_⟩
  exact (mainLoop_catches_exceptions
    [⟨"0_0", FetchOutcome.raises, AnalysisOutcome.returns⟩,
     ⟨"0_1", FetchOutcome.returns "loaded", AnalysisOutcome.returns⟩]
    ⟨"0_0", FetchOutcome.raises, AnalysisOutcome.returns⟩
    (by decide) (Or.inl rfl)).1

/-- **C10** — Loop invariant of `analysis_pipeline`: every iteration
appends the tile's filename to exactly one of the two lists, so at loop
exit `len succeeded + len failed` equals the number of selected tiles
processed, and — the processed tiles bearing pairwise distinct filenames —
the two lists are disjoint. -/
theorem mainLoop_partition (tiles : List TileRun)
    (hnodup : (tiles.map TileRun.filename).Nodup) :
    (∀ t acc, processTile t acc = (acc.1 ++ [t.filename], acc.2) ∨
      processTile t acc = (acc.1, acc.2 ++ [t.filename])) ∧
    (mainLoop tiles).1.length + (mainLoop tiles).2.length = tiles.length ∧
    ∀ x, x ∈ (mainLoop tiles).1 → x ∉ (mainLoop tiles).2 := by
  refine ⟨?_, ?_, ?_⟩
  · intro t acc
    rw [processTile_eq]
    by_cases h : tileFails t <;> simp [h]
  · rw [mainLoop_eq]
    simp only [List.length_map]
    rw [List.length_eq_length_filter_add (l := tiles) tileFails]
    omega
  · intro x hx hy
    rw [mainLoop_eq] at hx hy
    simp only [List.mem_map] at hx hy
    obtain ⟨t1, ht1, rfl⟩ := hx
    obtain ⟨t2, ht2, heq⟩ := hy
    have ht1' := List.mem_filter.mp ht1
    have ht2' := List.mem_filter.mp ht2
    have heqt : t2 = t1 :=
      List.inj_on_of_nodup_map hnodup ht2'.1 ht1'.1 heq
    have h1 : tileFails t1 = false := by simpa using ht1'.2
    have h2 : tileFails t1 = true := heqt ▸ ht2'.2
    rw [h1] at h2
    exact Bool.false_ne_true h2

/-- Witness for C10: a run over two tiles with distinct filenames, one
succeeding and one failing. -/
theorem mainLoop_partition_witness :
    (([(⟨"0_0", FetchOutcome.raises, AnalysisOutcome.returns⟩ : TileRun),
       ⟨"0_1", FetchOutcome.returns "loaded",
          AnalysisOutcome.returns⟩].map TileRun.filename).Nodup) ∧
    ((mainLoop
      [(⟨"0_0", FetchOutcome.raises, AnalysisOutcome.returns⟩ : TileRun),
       ⟨"0_1", FetchOutcome.returns "loaded",
          AnalysisOutcome.returns⟩]).1.length +
     (mainLoop
      [(⟨"0_0", FetchOutcome.raises, AnalysisOutcome.returns⟩ : TileRun),
       ⟨"0_1", FetchOutcome.returns "loaded",
          AnalysisOutcome.returns⟩]).2.length = 2) := by
  refine ⟨by decide, ?_⟩
  exact (mainLoop_partition
    [⟨"0_0", FetchOutcome.raises, AnalysisOutcome.returns⟩,
     ⟨"0_1", FetchOutcome.returns "loaded", AnalysisOutcome.returns⟩]
    (by decide)).2.1

/-- **C6** — The detection transform maps each raw blob `(row, col, sigma)`
to a feature whose radius is `sigma · √2` pixels converted to meters by the
pixel size, and whose derived columns satisfy `diameter = 2·radius`,
`circumference = 2π·radius` and `area = π·radius²` (coordinates via the
axis flips and the inverse-haversine step), in the detector's order. -/
theorem scale_space_transform_geometry (rawBlobs : List Blob)
    (imgHeight pixel_size lon1 lat1 : ℝ) :
    scale_space_transform rawBlobs imgHeight pixel_size lon1 lat1 =
      rawBlobs.map fun b =>
        { lon := (haversine_inv lon1 lat1 (b.col * pixel_size)
            ((imgHeight - b.row) * pixel_size)).1
          lat := (haversine_inv lon1 lat1 (b.col * pixel_size)
            ((imgHeight - b.row) * pixel_size)).2
          radius := b.sigma * Real.sqrt 2 * pixel_size
          diameter := 2 * (b.sigma * Real.sqrt 2 * pixel_size)
          circumference := 2 * Real.pi * (b.sigma * Real.sqrt 2 * pixel_size)
          area := Real.pi * (b.sigma * Real.sqrt 2 * pixel_size) ^ 2 } := by
  rw [scale_space_transform, log_blob_detect, List.map_map]
  refine List.map_congr_left fun b _ => ?_
  simp only [Function.comp_apply, blobToFeature]
  refine Feature.ext rfl rfl rfl (by ring) (by ring) (by ring)

/-- In a duplicate-free plan column, the first index found for a name is
characterized by position: `findIdx?` succeeds at `i` exactly when `i` is in
range and the plan's entry at `i` is that name. -/
theorem findIdx?_nodup_iff (coord : List String) (hnodup : coord.Nodup)
    (n : String) (i : Nat) :
    coord.findIdx? (· = n) = some i ↔
      ∃ h : i < coord.length, coord.get ⟨i, h⟩ = n := by
  rw [List.findIdx?_eq_some_iff_getElem]
  constructor
  · rintro ⟨h, hp, -⟩
    exact ⟨h, by simpa using hp⟩
  · rintro ⟨h, hget⟩
    refine ⟨h, by simpa using hget, fun j hji => ?_⟩
    have hj : j < coord.length := lt_trans hji h
    simp only [decide_eq_true_eq]
    intro hc
    have : coord[j] = coord[i] := by
      rw [hc]
      exact hget.symm
    have := (hnodup.getElem_inj_iff).mp this
    omega

/-- **C7** — With a duplicate-free plan and a todo file holding at least
one id present in the plan: the selected working subset is exactly the set
of plan rows whose filename appears in the todo file's `filename` column
(absent ids are skipped), while a missing, unreadable, column-less or empty
todo file — or one whose ids are all absent from the plan — selects the
full tile set instead of failing the run. -/
theorem todo_selection (coord names : List String) (hnodup : coord.Nodup)
    (husable : ∃ n ∈ names, n ∈ coord) :
    (∀ i, i ∈ selectTotal coord (some (TodoSource.entries names)) ↔
      ∃ h : i < coord.length, coord.get ⟨i, h⟩ ∈ names) ∧
    selectTotal coord none = List.range coord.length ∧
    selectTotal coord (some TodoSource.missing) = List.range coord.length ∧
    selectTotal coord (some TodoSource.unreadable) = List.range coord.length ∧
    selectTotal coord (some TodoSource.noFilenameColumn) =
      List.range coord.length ∧
    selectTotal coord (some (TodoSource.entries [])) =
      List.range coord.length ∧
    ∀ ns, (∀ n ∈ ns, n ∉ coord) →
      selectTotal coord (some (TodoSource.entries ns)) =
        List.range coord.length := by
  obtain ⟨n₀, hn₀mem, hn₀coord⟩ := husable
  have hne : names.length ≠ 0 := by
    intro h
    rw [List.length_eq_zero] at h
    subst h
    exact absurd hn₀mem (List.not_mem_nil n₀)
  refine ⟨?_, rfl, rfl, rfl, rfl, by simp [selectTotal, get_todo_filenames],
    ?_⟩
  · -- the entries branch: the filterMap result is nonempty, so it is the
    -- selected subset, and membership is the stated characterization
    have hidx : ∃ i, coord.findIdx? (· = n₀) = some i := by
      rw [← Option.isSome_iff_exists, List.findIdx?_isSome, List.any_eq_true]
      exact ⟨n₀, hn₀coord, by simp⟩
    obtain ⟨i₀, hi₀⟩ := hidx
    have hmem₀ : i₀ ∈ names.filterMap fun n => coord.findIdx? (· = n) :=
      List.mem_filterMap.mpr ⟨n₀, hn₀mem, hi₀⟩
    have hpos : 0 < (names.filterMap fun n => coord.findIdx? (· = n)).length :=
      List.length_pos.mpr (List.ne_nil_of_mem hmem₀)
    intro i
    simp only [selectTotal, get_todo_filenames, if_neg hne, if_pos hpos]
    rw [List.mem_filterMap]
    constructor
    · rintro ⟨n, hn, hfind⟩
      obtain ⟨h, hget⟩ := (findIdx?_nodup_iff coord hnodup n i).mp hfind
      exact ⟨h, hget ▸ hn⟩
    · rintro ⟨h, hget⟩
      exact ⟨coord.get ⟨i, h⟩, hget,
        (findIdx?_nodup_iff coord hnodup _ i).mpr ⟨h, rfl⟩⟩
  · -- all todo ids absent from the plan: every findIdx? is none, the
    -- filterMap is empty, and the full range is selected
    intro ns habsent
    have hnone : ∀ n ∈ ns, coord.findIdx? (· = n) = none := by
      intro n hn
      rw [List.findIdx?_eq_none_iff]
      intro x hx
      simp only [decide_eq_false_iff_not]
      intro hxn
      exact habsent n hn (hxn ▸ hx)
    have hempty : (ns.filterMap fun n => coord.findIdx? (· = n)) = [] := by
      rw [List.filterMap_eq_nil_iff]
      intro n hn
      rw [hnone n hn]
    rcases hns : ns.length with _ | k
    · simp [selectTotal, get_todo_filenames, hns]
    · simp [selectTotal, get_todo_filenames, hns, hempty]

/-- Witness for C7: a three-row plan and a todo file naming one present and
one absent id; row 2 (`"1_0"`) is selected and the fallback cases yield the
full range. -/
theorem todo_selection_witness :
    (["0_0", "0_1", "1_0"] : List String).Nodup ∧
    (∃ n ∈ ["1_0", "zzz"], n ∈ ["0_0", "0_1", "1_0"]) ∧
    (2 ∈ selectTotal ["0_0", "0_1", "1_0"]
      (some (TodoSource.entries ["1_0", "zzz"])) ↔
      ∃ h : 2 < (["0_0", "0_1", "1_0"] : List String).length,
        (["0_0", "0_1", "1_0"] : List String).get ⟨2, h⟩ ∈ ["1_0", "zzz"]) ∧
    selectTotal ["0_0", "0_1", "1_0"] (some TodoSource.missing) =
      List.range 3 := by
  have h := todo_selection ["0_0", "0_1", "1_0"] ["1_0", "zzz"]
    (by decide) ⟨"1_0", by decide, by decide⟩
  exact ⟨by decide, ⟨"1_0", by decide, by decide⟩, h.1 2, h.2.2.1⟩

/-- Peeling the last column off the tile double loop. -/
theorem cut_up_bbox_rows_succ (lon1 lat1 slon slat : ℚ) (n sv : Nat) :
    cut_up_bbox_rows lon1 lat1 slon slat (n + 1) sv =
      cut_up_bbox_rows lon1 lat1 slon slat n sv ++
        (List.range sv).map (cutUpRow lon1 lat1 slon slat n) := by
  simp [cut_up_bbox_rows, List.range_succ]

/-- The tile loop emits `stepsHorizontal * stepsVertical` rows. -/
theorem cut_up_bbox_rows_length (lon1 lat1 slon slat : ℚ) (sh sv : Nat) :
    (cut_up_bbox_rows lon1 lat1 slon slat sh sv).length = sh * sv := by
  induction sh with
  | zero => simp [cut_up_bbox_rows]
  | succ n ih =>
    rw [cut_up_bbox_rows_succ]
    simp [ih, Nat.succ_mul]

/-- Position of the tile for column `i`, row `j`: index `i * sv + j`
(row-major-by-column order). -/
theorem cut_up_bbox_rows_get (lon1 lat1 slon slat : ℚ) (sh sv i j : Nat)
    (hi : i < sh) (hj : j < sv) :
    (cut_up_bbox_rows lon1 lat1 slon slat sh sv)[i * sv + j]? =
      some (cutUpRow lon1 lat1 slon slat i j) := by
  induction sh with
  | zero => omega
  | succ n ih =>
    rw [cut_up_bbox_rows_succ]
    rcases Nat.lt_succ_iff_lt_or_eq.mp hi with h | rfl
    · have hlen : i * sv + j < (cut_up_bbox_rows lon1 lat1 slon slat n sv).length := by
        rw [cut_up_bbox_rows_length]
        calc i * sv + j < i * sv + sv := by omega
          _ = (i + 1) * sv := (Nat.succ_mul i sv).symm
          _ ≤ n * sv := Nat.mul_le_mul_right sv h
      rw [List.getElem?_append, if_pos hlen]
      exact ih h
    · have hlen : (cut_up_bbox_rows lon1 lat1 slon slat i sv).length ≤
        i * sv + j := by
        rw [cut_up_bbox_rows_length]
        omega
      rw [List.getElem?_append_right hlen, cut_up_bbox_rows_length,
        Nat.add_sub_cancel_left, List.getElem?_map, List.getElem?_range hj]
      rfl

/-- **C4** — For every southwest corner and per-step offset pair (derived
upstream from the bounding box, tile pixel count and pixel size), the tile
loop of `cut_up_bbox` produces exactly `stepsHorizontal * stepsVertical`
rows in row-major-by-column order (column `i`, row `j` at flat index
`i * stepsV + j`), each with id `"{col}_{row}"` and with its box computed
by direct multiplication of the per-step offsets by the column and row
index from the southwest corner. -/
theorem cut_up_bbox_grid (lon1 lat1 slon slat : ℚ) (sh sv i j : Nat)
    (hi : i < sh) (hj : j < sv) :
    (cut_up_bbox_rows lon1 lat1 slon slat sh sv).length = sh * sv ∧
    (cut_up_bbox_rows lon1 lat1 slon slat sh sv)[i * sv + j]? =
      some { filename := toString i ++ "_" ++ toString j
             lonMin := lon1 + i * slon
             latMin := lat1 + j * slat
             lonMax := lon1 + i * slon + slon
             latMax := lat1 + j * slat + slat } :=
  ⟨cut_up_bbox_rows_length lon1 lat1 slon slat sh sv,
    cut_up_bbox_rows_get lon1 lat1 slon slat sh sv i j hi hj⟩

/-- Witness for C4: a 2×3 grid with unit offsets; the tile for column 1,
row 2 sits at flat index `1 * 3 + 2 = 5` with id `"1_2"`. -/
theorem cut_up_bbox_grid_witness :
    (1 : Nat) < 2 ∧ (2 : Nat) < 3 ∧
    ((cut_up_bbox_rows 0 0 1 2 2 3).length = 2 * 3 ∧
      (cut_up_bbox_rows 0 0 1 2 2 3)[1 * 3 + 2]? =
        some { filename := toString 1 ++ "_" ++ toString 2
               lonMin := 0 + (1 : Nat) * 1
               latMin := 0 + (2 : Nat) * 2
               lonMax := 0 + (1 : Nat) * 1 + 1
               latMax := 0 + (2 : Nat) * 2 + 2 }) :=
  ⟨by decide, by decide, cut_up_bbox_grid 0 0 1 2 2 3 1 2 (by decide) (by decide)⟩

end TreeDetect
